import Mathlib

/-!
Verification of the kidney-stone-detection app's core logic (`app.py`):
`call_ultralytics_api`, `interpret_results` and `draw_bounding_boxes`,
shallowly embedded in Lean 4.

Modelling conventions:
* The inference-result JSON is modelled by its documented shape
  (`{"images": [{"results": [{"name", "confidence", "box": {...}}]}]}`).
  A key that is absent or null is modelled as `Option.none`; Python's
  `dict.get(k, default)` becomes `Option.getD`.  (A `"results"` key bound
  to JSON null and an absent `"results"` key both make Python's
  `not results` test true and are behaviourally identical downstream, so
  both collapse to `none` here.)
* Python's `x or default` on strings/dicts (which replaces falsy values,
  i.e. `None` and the empty string / empty dict) is modelled explicitly
  by `pyOrStr` resp. `Option.getD` with the all-`none` box.
* Box coordinates and confidences are JSON numbers; no arithmetic is ever
  performed on them, so they are modelled as `Int`.
* The Pillow drawing side effects are modelled by recording, in order,
  the rectangles that `draw.rectangle` is called with; the decoded RGB
  image is carried along as an opaque `base` value.  The network call of
  `requests.post` is modelled by passing the remote's `(status, body)`
  response as an explicit argument and counting how many network calls
  the function performs.
-/

/-- A bounding box as found under the `"box"` key of a detection:
four optional numeric edge coordinates. -/
structure Box where
  x1 : Option Int
  y1 : Option Int
  x2 : Option Int
  y2 : Option Int
deriving DecidableEq

/-- One detection object of the remote service's reply: optional label
`name`, optional `confidence` (read but never used by the code), and an
optional `box`. -/
structure Detection where
  name : Option String
  confidence : Option Int
  box : Option Box
deriving DecidableEq

/-- One image-result group: the value of its `"results"` key
(`none` = absent or null). -/
structure ImageGroup where
  results : Option (List Detection)
deriving DecidableEq

/-- The top-level JSON payload: the value of its `"images"` key
(`none` = absent or null). -/
structure InferenceResult where
  images : Option (List ImageGroup)
deriving DecidableEq

/-- Python's `x or d` for an optional string `x`: `None` and the empty
string (both falsy) are replaced by the default `d`. -/
def pyOrStr : Option String → String → String
| none, d => d
| some s, d => if s = "" then d else s

/-- Python's `str.lower()`: character-wise lower-casing (all labels in
play are ASCII, where `Char.toLower` agrees with Python). -/
def pyLower (s : String) : String := ⟨s.data.map Char.toLower⟩

/-- Python's `str.strip()`: remove leading and trailing whitespace. -/
def pyStrip (s : String) : String :=
  ⟨((s.data.dropWhile Char.isWhitespace).reverse.dropWhile Char.isWhitespace).reverse⟩

/-- `normal_labels = {"normal kidney", "normal_kidney", "normal"}` from
`interpret_results` (the same literal set reappears in
`draw_bounding_boxes`). -/
def normal_labels : List String := ["normal kidney", "normal_kidney", "normal"]

/-- Embedding of `interpret_results(result_json)` (app.py lines 29-45):
returns the `(message, detections, positive)` triple. -/
def interpret_results (result_json : InferenceResult) : String × List Detection × Bool :=
  match result_json.images.getD [] with
  | [] => ("No prediction available", [], false)
  | img0 :: _ =>
    let results := img0.results.getD []
    if results.isEmpty then
      ("Normal Kidney (no stones detected)", results, false)
    else
      let has_non_normal :=
        results.any fun det => !(normal_labels.contains (pyLower (pyOrStr det.name "")))
      if has_non_normal then
        ("Kidney Stone Detected", results, true)
      else
        ("Normal Kidney (no stones detected)", results, false)

/-- The classification `interpret_results` applies to one detection:
`(det.get("name") or "").lower() in normal_labels`. -/
def isNormalInterp (det : Detection) : Bool :=
  normal_labels.contains (pyLower (pyOrStr det.name ""))

/-- Convenience constructor: a response whose single image group carries
exactly the given detection list. -/
def respOf (dets : List Detection) : InferenceResult :=
  ⟨some [⟨some dets⟩]⟩

/-- The all-`none` box: model of the empty dict `{}` that
`det.get("box") or {}` substitutes for a missing, null or empty box. -/
def emptyBox : Box := ⟨none, none, none, none⟩

/-- The box `draw_bounding_boxes` reads coordinates from:
`box = det.get("box") or {}`. -/
def boxOf (det : Detection) : Box := det.box.getD emptyBox

/-- The skip test `None in (x1, x2, y1, y2)` of `draw_bounding_boxes`:
true iff at least one of the four coordinates is missing. -/
def missingCoord (det : Detection) : Bool :=
  (boxOf det).x1.isNone || (boxOf det).x2.isNone ||
    (boxOf det).y1.isNone || (boxOf det).y2.isNone

/-- One recorded call
`draw.rectangle([x1, y1, x2, y2], outline=color, width=3)`:
Pillow's `fill` keyword is not passed (`none` = unfilled). -/
structure DrawnRect where
  x1 : Int
  y1 : Int
  x2 : Int
  y2 : Int
  outline : String
  fill : Option String
  width : Nat
deriving DecidableEq

/-- The rectangle (if any) that one loop iteration of
`draw_bounding_boxes` draws for a detection: `none` when a coordinate is
missing (the `continue` branch); otherwise an unfilled 3-wide rectangle,
green when `(det.get("name") or "object").strip().lower()` is in the
normal-label set, red otherwise. -/
def drawnRectOf (det : Detection) : Option DrawnRect :=
  let b := boxOf det
  match b.x1, b.x2, b.y1, b.y2 with
  | some x1, some x2, some y1, some y2 =>
    let label := pyStrip (pyOrStr det.name "object")
    let color := if normal_labels.contains (pyLower label) then "green" else "red"
    some { x1 := x1, y1 := y1, x2 := x2, y2 := y2,
           outline := color, fill := none, width := 3 }
  | _, _, _, _ => none

/-- The value `draw_bounding_boxes` returns: the decoded RGB copy of the
input bytes (`base`, opaque here) together with the rectangles drawn on
it, in order. -/
structure RenderedImage where
  base : List Nat
  rects : List DrawnRect
deriving DecidableEq

/-- Embedding of `draw_bounding_boxes(image_bytes, detections)`
(app.py lines 48-71): decodes the bytes into a fresh image and draws one
rectangle per detection that has all four coordinates. -/
def draw_bounding_boxes (image_bytes : List Nat) (detections : List Detection) :
    RenderedImage :=
  { base := image_bytes, rects := detections.filterMap drawnRectOf }

/-- The two exception kinds `call_ultralytics_api` can raise: the
`RuntimeError` for a missing key, and the `requests.HTTPError` that
`response.raise_for_status()` raises on a 4xx/5xx status. -/
inductive ApiError where
| configError (msg : String)
| serviceError (status : Nat) (body : String)
deriving DecidableEq

/-- Python's falsy test `not s` for an optional string: true for `None`
and for the empty string. -/
def pyFalsyStr : Option String → Bool
| none => true
| some s => s = ""

/-- Embedding of `call_ultralytics_api(image_bytes)` (app.py lines
15-26).  `api_key` is the configured `API_KEY` value; the remote's reply
to `requests.post` is passed in as `response = (status, body)`.  Returns
the number of network calls performed together with the outcome: the
missing-key `RuntimeError` (raised before any network call), the
`raise_for_status` error on a 4xx/5xx status, or the response body. -/
def call_ultralytics_api (api_key : Option String) (response : Nat × String) :
    Nat × Except ApiError String :=
  if pyFalsyStr api_key then
    (0, Except.error (ApiError.configError
      "Ultralytics API key is missing. Set ULTRALYTICS_API_KEY env var or edit app.py."))
  else
    let (status, body) := response
    if 400 ≤ status ∧ status < 600 then
      (1, Except.error (ApiError.serviceError status body))
    else
      (1, Except.ok body)

/-- The detection of end-to-end scenario B: label `"Stone"`, box
`(10,10)-(50,50)`. -/
def detStone : Detection :=
  ⟨some "Stone", some 0, some ⟨some 10, some 10, some 50, some 50⟩⟩

/-- A detection labelled `"normal kidney"` with the same box. -/
def detNormalKid : Detection :=
  ⟨some "normal kidney", some 0, some ⟨some 10, some 10, some 50, some 50⟩⟩

/-- A detection whose box is missing its `y2` coordinate. -/
def detMissingY2 : Detection :=
  ⟨some "Stone", some 0, some ⟨some 1, some 2, some 3, none⟩⟩

/-- Scenario A's response `{"images": [{"results": []}]}`. -/
def respA : InferenceResult := ⟨some [⟨some []⟩]⟩

/-! ## Helper lemmas -/

lemma interpret_pos_aux (r : InferenceResult) (g : ImageGroup) (gs : List ImageGroup)
    (dets : List Detection) (det : Detection)
    (himg : r.images.getD [] = g :: gs)
    (hres : g.results.getD [] = dets)
    (hmem : det ∈ dets)
    (hnn : isNormalInterp det = false) :
    interpret_results r = ("Kidney Stone Detected", dets, true) := by
  have hne : dets.isEmpty = false := by
    cases dets with
    | nil => cases hmem
    | cons d ds => rfl
  have hany :
      (dets.any fun det => !(normal_labels.contains (pyLower (pyOrStr det.name "")))) = true :=
    List.any_eq_true.mpr ⟨det, hmem, by
      simpa [isNormalInterp] using hnn⟩
  unfold interpret_results
  rw [himg]
  simp only [hres, hne, hany, Bool.false_eq_true, if_false, if_true]

lemma drawnRectOf_eq_none_of_missing (det : Detection) (h : missingCoord det = true) :
    drawnRectOf det = none := by
  unfold missingCoord at h
  unfold drawnRectOf
  cases hx1 : (boxOf det).x1 <;> cases hx2 : (boxOf det).x2 <;>
    cases hy1 : (boxOf det).y1 <;> cases hy2 : (boxOf det).y2 <;>
    simp [hx1, hx2, hy1, hy2] at h ⊢

lemma filterMap_drawnRectOf_filter (l : List Detection) :
    l.filterMap drawnRectOf =
      (l.filter fun d => !(missingCoord d)).filterMap drawnRectOf := by
  induction l with
  | nil => rfl
  | cons d l ih =>
    by_cases h : missingCoord d = true
    · simp [List.filter_cons, h, List.filterMap_cons,
        drawnRectOf_eq_none_of_missing d h, ih]
    · simp only [Bool.not_eq_true] at h
      simp [List.filter_cons, h, List.filterMap_cons, ih]

/-! ## Claim theorems -/

/-- C1: if the first image group's detection list is non-empty and at
least one detection's lower-cased label is outside the normal-label set,
`interpret_results` returns the message "Kidney Stone Detected", the
full detection list unmodified, and `isPositive = true` — a single
non-normal label forces the positive branch. -/
theorem interpret_results_nonnormal_forces_positive
    (r : InferenceResult) (g : ImageGroup) (gs : List ImageGroup)
    (dets : List Detection) (det : Detection)
    (himg : r.images.getD [] = g :: gs)
    (hres : g.results.getD [] = dets)
    (hmem : det ∈ dets)
    (hnn : isNormalInterp det = false) :
    interpret_results r = ("Kidney Stone Detected", dets, true) :=
  interpret_pos_aux r g gs dets det himg hres hmem hnn

/-- Witness for C1 at the concrete response `{"images": [{"results":
[detStone]}]}` with `detStone` labelled `"Stone"`. -/
theorem interpret_results_nonnormal_forces_positive_witness :
    (respOf [detStone]).images.getD [] = ImageGroup.mk (some [detStone]) :: [] ∧
    (ImageGroup.mk (some [detStone])).results.getD [] = [detStone] ∧
    detStone ∈ [detStone] ∧
    isNormalInterp detStone = false ∧
    interpret_results (respOf [detStone]) = ("Kidney Stone Detected", [detStone], true) :=
  ⟨rfl, rfl, by decide, by decide,
    interpret_results_nonnormal_forces_positive (respOf [detStone])
      (ImageGroup.mk (some [detStone])) [] [detStone] detStone rfl rfl
      (by decide) (by decide)⟩

/-- C2 counterexample: a detection named `"normal "` (trailing
whitespace) is NOT classified as normal by `interpret_results` — the
code lower-cases but never strips labels there — so the single-element
list with that label yields the positive verdict, refuting the claim
that such a list yields the negative (normal) verdict. -/
theorem interpret_results_trailing_whitespace_positive :
    interpret_results (respOf [⟨some "normal ", none, none⟩]) =
      ("Kidney Stone Detected", [⟨some "normal ", none, none⟩], true) := by
  decide

/-- C2 amended: `interpret_results`'s label comparison is
case-insensitive but not whitespace-trimmed: `"Normal"` and
`"NORMAL_KIDNEY"` are classified as normal, so a list containing only
such labels yields the negative verdict, while `"normal "` (trailing
whitespace) is classified as non-normal and yields the positive
verdict. -/
theorem interpret_results_case_insensitive_untrimmed :
    interpret_results (respOf [⟨some "Normal", none, none⟩, ⟨some "NORMAL_KIDNEY", none, none⟩]) =
      ("Normal Kidney (no stones detected)",
        [⟨some "Normal", none, none⟩, ⟨some "NORMAL_KIDNEY", none, none⟩], false) ∧
    interpret_results (respOf [⟨some "normal ", none, none⟩]) =
      ("Kidney Stone Detected", [⟨some "normal ", none, none⟩], true) := by
  exact ⟨by decide, by decide⟩

/-- C3: when the first image group exists but its detection list is
empty, `interpret_results` returns exactly
`("Normal Kidney (no stones detected)", [], false)`. -/
theorem interpret_results_empty_detection_list
    (r : InferenceResult) (g : ImageGroup) (gs : List ImageGroup)
    (himg : r.images.getD [] = g :: gs)
    (hres : g.results.getD [] = []) :
    interpret_results r = ("Normal Kidney (no stones detected)", [], false) := by
  unfold interpret_results
  rw [himg]
  simp [hres]

/-- Witness for C3 at the response `{"images": [{"results": []}]}`. -/
theorem interpret_results_empty_detection_list_witness :
    (respOf []).images.getD [] = ImageGroup.mk (some []) :: [] ∧
    (ImageGroup.mk (some [])).results.getD [] = ([] : List Detection) ∧
    interpret_results (respOf []) = ("Normal Kidney (no stones detected)", [], false) :=
  ⟨rfl, rfl,
    interpret_results_empty_detection_list (respOf []) (ImageGroup.mk (some [])) [] rfl rfl⟩

/-- C4: when the `"images"` list is absent or empty,
`interpret_results` returns exactly `("No prediction available", [], false)`. -/
theorem interpret_results_no_image_groups
    (r : InferenceResult)
    (h : r.images = none ∨ r.images = some []) :
    interpret_results r = ("No prediction available", [], false) := by
  unfold interpret_results
  rcases h with h | h <;> rw [h] <;> rfl

/-- Witness for C4 at the response with an absent `"images"` key. -/
theorem interpret_results_no_image_groups_witness :
    ((⟨none⟩ : InferenceResult).images = none ∨
      (⟨none⟩ : InferenceResult).images = some []) ∧
    interpret_results ⟨none⟩ = ("No prediction available", [], false) :=
  ⟨Or.inl rfl, interpret_results_no_image_groups ⟨none⟩ (Or.inl rfl)⟩

/-- C5: with a missing or empty API credential, `call_ultralytics_api`
fails before any network call (zero network invocations) with the
missing-key configuration error, an error kind distinct from every
network/service failure. -/
theorem call_api_missing_key_no_network
    (api_key : Option String) (response : Nat × String)
    (h : pyFalsyStr api_key = true) :
    call_ultralytics_api api_key response =
      (0, Except.error (ApiError.configError
        "Ultralytics API key is missing. Set ULTRALYTICS_API_KEY env var or edit app.py.")) ∧
    ∀ (s : Nat) (b : String),
      ApiError.configError
          "Ultralytics API key is missing. Set ULTRALYTICS_API_KEY env var or edit app.py." ≠
        ApiError.serviceError s b := by
  constructor
  · unfold call_ultralytics_api
    rw [h]
    rfl
  · intro s b hc
    cases hc

/-- Witness for C5 at the absent credential and a 200-response remote. -/
theorem call_api_missing_key_no_network_witness :
    pyFalsyStr none = true ∧
    (call_ultralytics_api none (200, "{}") =
      (0, Except.error (ApiError.configError
        "Ultralytics API key is missing. Set ULTRALYTICS_API_KEY env var or edit app.py.")) ∧
    ∀ (s : Nat) (b : String),
      ApiError.configError
          "Ultralytics API key is missing. Set ULTRALYTICS_API_KEY env var or edit app.py." ≠
        ApiError.serviceError s b) :=
  ⟨rfl, call_api_missing_key_no_network none (200, "{}") rfl⟩

/-- C6: `draw_bounding_boxes` draws no rectangle for a detection missing
one of its four box coordinates (and, being a total function, raises
nothing); the rectangles it records are exactly those of the
detections that have all four coordinates. -/
theorem draw_bounding_boxes_skips_missing_coords
    (image_bytes : List Nat) (detections : List Detection) (det : Detection)
    (h : missingCoord det = true) :
    drawnRectOf det = none ∧
    (draw_bounding_boxes image_bytes detections).rects =
      (detections.filter fun d => !(missingCoord d)).filterMap drawnRectOf :=
  ⟨drawnRectOf_eq_none_of_missing det h,
    filterMap_drawnRectOf_filter detections⟩

/-- Witness for C6: in the list `[detMissingY2, detStone]` the detection
without a `y2` is skipped while the complete one is still rendered. -/
theorem draw_bounding_boxes_skips_missing_coords_witness :
    missingCoord detMissingY2 = true ∧
    (drawnRectOf detMissingY2 = none ∧
    (draw_bounding_boxes [0] [detMissingY2, detStone]).rects =
      (([detMissingY2, detStone].filter fun d => !(missingCoord d)).filterMap drawnRectOf)) :=
  ⟨by decide,
    draw_bounding_boxes_skips_missing_coords [0] [detMissingY2, detStone] detMissingY2 (by decide)⟩

/-- C7: a detection with all four coordinates present is drawn as an
unfilled rectangle at those coordinates with a 3-pixel-wide outline,
green when its stripped, lower-cased label is in the normal-label set
and red otherwise; concretely, `"Stone"` is drawn red and
`"normal kidney"` green. -/
theorem draw_bounding_boxes_outline_color_width
    (det : Detection) (x1 x2 y1 y2 : Int)
    (h1 : (boxOf det).x1 = some x1) (h2 : (boxOf det).x2 = some x2)
    (h3 : (boxOf det).y1 = some y1) (h4 : (boxOf det).y2 = some y2) :
    drawnRectOf det = some
      { x1 := x1, y1 := y1, x2 := x2, y2 := y2,
        outline :=
          if normal_labels.contains (pyLower (pyStrip (pyOrStr det.name "object"))) then
            "green"
          else
            "red",
        fill := none, width := 3 } ∧
    drawnRectOf detStone = some ⟨10, 10, 50, 50, "red", none, 3⟩ ∧
    drawnRectOf detNormalKid = some ⟨10, 10, 50, 50, "green", none, 3⟩ := by
  refine ⟨?_, by decide, by decide⟩
  simp only [drawnRectOf, h1, h2, h3, h4]

/-- Witness for C7 at the scenario-B detection `detStone`. -/
theorem draw_bounding_boxes_outline_color_width_witness :
    (boxOf detStone).x1 = some 10 ∧ (boxOf detStone).x2 = some 50 ∧
    (boxOf detStone).y1 = some 10 ∧ (boxOf detStone).y2 = some 50 ∧
    (drawnRectOf detStone = some
      { x1 := 10, y1 := 10, x2 := 50, y2 := 50,
        outline :=
          if normal_labels.contains (pyLower (pyStrip (pyOrStr detStone.name "object"))) then
            "green"
          else
            "red",
        fill := none, width := 3 } ∧
    drawnRectOf detStone = some ⟨10, 10, 50, 50, "red", none, 3⟩ ∧
    drawnRectOf detNormalKid = some ⟨10, 10, 50, 50, "green", none, 3⟩) :=
  ⟨rfl, rfl, rfl, rfl,
    draw_bounding_boxes_outline_color_width detStone 10 50 10 50 rfl rfl rfl rfl⟩

/-- C8: for the response `{"images": [{"results": []}]}` the verdict is
"Normal Kidney (no stones detected)" with `isPositive = false`, and
rendering the returned (empty) detection list draws no rectangle and
yields an image identical to the decoded input, the input bytes
untouched. -/
theorem pipeline_empty_results_identity (image_bytes : List Nat) :
    interpret_results respA = ("Normal Kidney (no stones detected)", [], false) ∧
    (draw_bounding_boxes image_bytes (interpret_results respA).2.1).rects = [] ∧
    (draw_bounding_boxes image_bytes (interpret_results respA).2.1).base = image_bytes :=
  ⟨rfl, rfl, rfl⟩

/-- C9: a detection whose `"name"` is absent or null is read back as the
empty string, which is outside the normal-label set, so any first-group
detection list containing such a detection yields
`("Kidney Stone Detected", dets, true)`. -/
theorem interpret_results_missing_name_positive
    (r : InferenceResult) (g : ImageGroup) (gs : List ImageGroup)
    (dets : List Detection) (det : Detection)
    (himg : r.images.getD [] = g :: gs)
    (hres : g.results.getD [] = dets)
    (hmem : det ∈ dets)
    (hname : det.name = none) :
    pyOrStr det.name "" = "" ∧
    interpret_results r = ("Kidney Stone Detected", dets, true) := by
  have h1 : pyOrStr det.name "" = "" := by rw [hname]; rfl
  refine ⟨h1, interpret_pos_aux r g gs dets det himg hres hmem ?_⟩
  simp [isNormalInterp, h1]
  decide

/-- Witness for C9 at a single nameless detection. -/
theorem interpret_results_missing_name_positive_witness :
    (respOf [⟨none, none, none⟩]).images.getD [] =
      ImageGroup.mk (some [⟨none, none, none⟩]) :: [] ∧
    (ImageGroup.mk (some [⟨none, none, none⟩])).results.getD [] = [⟨none, none, none⟩] ∧
    (⟨none, none, none⟩ : Detection) ∈ [(⟨none, none, none⟩ : Detection)] ∧
    (⟨none, none, none⟩ : Detection).name = none ∧
    (pyOrStr (⟨none, none, none⟩ : Detection).name "" = "" ∧
      interpret_results (respOf [⟨none, none, none⟩]) =
        ("Kidney Stone Detected", [⟨none, none, none⟩], true)) :=
  ⟨rfl, rfl, by decide, rfl,
    interpret_results_missing_name_positive (respOf [⟨none, none, none⟩])
      (ImageGroup.mk (some [⟨none, none, none⟩])) [] [⟨none, none, none⟩]
      ⟨none, none, none⟩ rfl rfl (by decide) rfl⟩

/-- C10: for every input, `interpret_results`'s three output components
are mutually consistent: `isPositive` is true exactly when the message
is "Kidney Stone Detected", and a positive result carries a non-empty
detection list. -/
theorem interpret_results_components_consistent (r : InferenceResult) :
    ((interpret_results r).2.2 = true ↔
      (interpret_results r).1 = "Kidney Stone Detected") ∧
    ((interpret_results r).2.2 = false ∨ (interpret_results r).2.1.isEmpty = false) := by
  unfold interpret_results
  rcases r.images.getD [] with _ | ⟨g, gs⟩
  · simp
  · dsimp only
    rcases hres : g.results.getD [] with _ | ⟨d, ds⟩
    · simp
    · cases hany :
        ((d :: ds).any fun det => !(normal_labels.contains (pyLower (pyOrStr det.name "")))) <;>
        simp
